import Mathlib

set_option maxRecDepth 16000

/-!
Verification of the PDF outline-extraction and persona-driven ranking engine.

The development shallowly embeds the two Python modules of the repository:
`round1a.py` (outline extraction: span classification, heading collection,
deduplication, page sort) and `Challenge_1b/round1b.py` (section segmentation,
relevance scoring, subsection extraction, ranking pipeline).

Conventions of the embedding:
- Python strings are `List Char` (`Str`); helper functions mirror the exact
  Python string methods used (`strip`, `lower`, `isdigit`, `isupper`,
  `istitle`, `startswith`, substring membership, `split`).
- Python floats are modelled as `ℚ`.
- Each `re` pattern used by the source is compiled by hand into a decidable
  matcher; all the patterns involved are free of essential backtracking
  (every optional/starred piece is followed by a piece that cannot match the
  same character class), so maximal-munch matching is complete for them.
- The external sentence-embedding model together with `cosine_similarity`
  is abstracted as a parameter `sim : Str → Str → ℚ`.
- Python `list.sort(key=k, reverse=True)` (a stable sort) is modelled by
  `List.mergeSort` with the corresponding total boolean relation.
-/

/-- Python strings, modelled as lists of characters. -/
abbrev Str := List Char

/-- Shorthand turning a Lean string literal into the `Str` model. -/
def str (s : String) : Str := s.toList

namespace Py

/-- The characters Python `str.strip` removes (ASCII whitespace). -/
def isPySpace (c : Char) : Bool :=
  c == ' ' || c == '\t' || c == '\n' || c == '\r' || c == '\x0b' || c == '\x0c'

/-- Python `str.strip()`: drop leading and trailing whitespace. -/
def pyStrip (s : Str) : Str :=
  ((s.dropWhile isPySpace).reverse.dropWhile isPySpace).reverse

/-- Python `str.lower()` (ASCII case folding, which covers all source inputs). -/
def lowerStr (s : Str) : Str := s.map Char.toLower

/-- Python `str.isdigit()`: nonempty and all digits. -/
def pyIsdigit (s : Str) : Bool := !s.isEmpty && s.all (·.isDigit)

/-- Python `str.startswith(p)` for `Str`. -/
def startsWithStr : Str → Str → Bool
  | [], _ => true
  | _ :: _, [] => false
  | p :: ps, c :: cs => p == c && startsWithStr ps cs

/-- Python `needle in haystack` (substring containment). -/
def containsSub (needle : Str) : Str → Bool
  | [] => needle.isEmpty
  | c :: rest => startsWithStr needle (c :: rest) || containsSub needle rest

/-- Python `str.isupper()`: at least one cased character and no lowercase one. -/
def pyIsUpper (s : Str) : Bool := s.any (·.isUpper) && !(s.any (·.isLower))

/-- State machine for Python `str.istitle()`: the flag records whether the
previous character was cased. -/
def istitleAux : Bool → Str → Bool
  | _, [] => true
  | prev, c :: rest =>
    if c.isUpper then !prev && istitleAux true rest
    else if c.isLower then prev && istitleAux true rest
    else istitleAux false rest

/-- Python `str.istitle()`: uppercase only after uncased, lowercase only after
cased, and at least one cased character. -/
def pyIsTitle (s : Str) : Bool :=
  s.any (fun c => c.isUpper || c.isLower) && istitleAux false s

/-- Matcher for `re.search(r'\d{4}', s)`: four consecutive digits somewhere. -/
def has4ConsecDigits : Str → Bool
  | a :: b :: c :: d :: rest =>
    (a.isDigit && b.isDigit && c.isDigit && d.isDigit) ||
      has4ConsecDigits (b :: c :: d :: rest)
  | _ => false

/-- Collapse every maximal whitespace run into a single space
(`re.sub(r'\s+', ' ', s)`); the flag records whether the previous character
was whitespace. -/
def normWsAux : Bool → Str → Str
  | _, [] => []
  | prevSpace, c :: rest =>
    if isPySpace c then
      if prevSpace then normWsAux true rest else ' ' :: normWsAux true rest
    else c :: normWsAux false rest

/-- `re.sub(r'\s+', ' ', s)`. -/
def normWs (s : Str) : Str := normWsAux false s

/-- Matcher for `re.match(r'^(\d+\.?\d*\s+)', s)`: digits, optional dot, more
digits, then whitespace.  (If the optional dot is present but the tail fails,
the dot-free alternative would need whitespace at the dot, which is
impossible, so maximal munch is complete.) -/
def matchNumbered (s : Str) : Bool :=
  let ds := s.takeWhile (·.isDigit)
  let r1 := s.dropWhile (·.isDigit)
  if ds.isEmpty then false
  else
    let r2 := match r1 with
      | '.' :: t => t
      | _ => r1
    match r2.dropWhile (·.isDigit) with
    | c :: _ => isPySpace c
    | [] => false

end Py

namespace R1a

open Py

/-- One text span as produced by the PDF layer for `round1a.py` (the `bbox`
and `font` fields are never consulted by the classifier and are omitted). -/
structure Block where
  text : Str
  font_size : ℚ
  font_flags : Nat
  deriving DecidableEq

/-- One page of spans (`page_number`, `text_blocks`). -/
structure PageData where
  page_number : Nat
  text_blocks : List Block
  deriving DecidableEq

/-- Heading levels H1/H2/H3. -/
inductive HeadingLevel where
  | H1
  | H2
  | H3
  deriving DecidableEq

/-- One extracted heading. -/
structure Heading where
  level : HeadingLevel
  text : Str
  page : Nat
  deriving DecidableEq

/-- `is_bold`: bit 4 of the PyMuPDF font flags. -/
def is_bold (flags : Nat) : Bool := flags &&& 16 != 0

/-- Matcher for `re.match(r'^([A-Z]\.?\s+)', s)`. -/
def matchLetterCS : Str → Bool
  | [] => false
  | c :: rest =>
    c.isUpper &&
      (match rest with
       | '.' :: t =>
         (match t with
          | e :: _ => isPySpace e
          | [] => false)
       | e :: _ => isPySpace e
       | [] => false)

/-- Characters of the class `[IVX]`. -/
def isRomanCS (c : Char) : Bool := c == 'I' || c == 'V' || c == 'X'

/-- Matcher for `re.match(r'^([IVX]+\.?\s+)', s)`. -/
def matchRomanCS (s : Str) : Bool :=
  let rs := s.takeWhile isRomanCS
  let r1 := s.dropWhile isRomanCS
  if rs.isEmpty then false
  else
    match r1 with
    | '.' :: t =>
      (match t with
       | e :: _ => isPySpace e
       | [] => false)
    | e :: _ => isPySpace e
    | [] => false

/-- Matcher for `re.match('^(W\s+\d+)', s)` for a literal word `W`
(case-sensitive): the word, then whitespace, then at least one digit. -/
def matchWordNumCS (w : Str) (s : Str) : Bool :=
  if s.take w.length == w then
    let r := s.drop w.length
    let sp := r.takeWhile isPySpace
    match r.dropWhile isPySpace with
    | c :: _ => !sp.isEmpty && c.isDigit
    | [] => false
  else false

/-- `is_heading_pattern`: any of the seven `heading_patterns` regexes matches
at the start of the stripped text. -/
def is_heading_pattern (t : Str) : Bool :=
  let t := pyStrip t
  matchNumbered t || matchLetterCS t || matchRomanCS t ||
  matchWordNumCS (str "Chapter") t || matchWordNumCS (str "Section") t ||
  matchWordNumCS (str "CHAPTER") t || matchWordNumCS (str "Part") t

/-- `classify_heading_level`: reject short or purely numeric text, then
absolute font-size bands (18/16 → H1, 14 → H2, 12 → H3), then the
heading-pattern rule, then the bold-and-large rule. -/
def classify_heading_level (b : Block) (avg_font_size : ℚ) : Option HeadingLevel :=
  let text := pyStrip b.text
  let bold := is_bold b.font_flags
  if text.length < 2 ∨ pyIsdigit text = true then none
  else if 18 ≤ b.font_size then some .H1
  else if 16 ≤ b.font_size then some .H1
  else if 14 ≤ b.font_size then some .H2
  else if 12 ≤ b.font_size then some .H3
  else if is_heading_pattern text = true then
    if bold = true ∨ avg_font_size * 1.2 < b.font_size then some .H1
    else if avg_font_size * 1.1 < b.font_size then some .H2
    else some .H3
  else if bold = true ∧ avg_font_size * 1.1 < b.font_size then
    if avg_font_size * 1.3 < b.font_size then some .H1
    else if avg_font_size * 1.2 < b.font_size then some .H2
    else some .H3
  else none

/-- `calculate_average_font_size`: mean of all span sizes, `12` if none. -/
def calculate_average_font_size (pages : List PageData) : ℚ :=
  let sizes := pages.flatMap (fun p => p.text_blocks.map (·.font_size))
  if sizes.isEmpty then 12 else sizes.sum / (sizes.length : ℚ)

/-- The allow-list of structural heading names used by `extract_headings`. -/
def allowed_headings : List Str :=
  [str "Revision History", str "Table of Contents", str "Acknowledgements",
   str "References", str "Syllabus", str "Business Outcomes", str "Content",
   str "Trademarks", str "Documents and Web Sites"]

/-- Matcher for `re.match(r'^[0-9]+\.[ ]', s)`: digits, a dot, a space. -/
def isNumberedHeading (s : Str) : Bool :=
  let ds := s.takeWhile (·.isDigit)
  !ds.isEmpty &&
    (match s.dropWhile (·.isDigit) with
     | '.' :: ' ' :: _ => true
     | _ => false)

/-- Dedup key of a heading: `(text.lower(), level)`. -/
def heading_key (h : Heading) : Str × HeadingLevel := (lowerStr h.text, h.level)

/-- The classified headings of `extract_headings` before deduplication:
classify every block, normalise whitespace, and keep only numbered or
allow-listed texts. -/
def rawHeadings (pages : List PageData) : List Heading :=
  let avg := calculate_average_font_size pages
  pages.flatMap (fun p =>
    p.text_blocks.filterMap (fun b =>
      match classify_heading_level b avg with
      | some lvl =>
        let t := normWs (pyStrip b.text)
        if isNumberedHeading t || allowed_headings.any (fun h => startsWithStr h t)
        then some (Heading.mk lvl t p.page_number)
        else none
      | none => none))

/-- Loop of `filter_duplicate_headings`: keep a heading when its key has not
been seen yet. -/
def filterDupAux (seen : List (Str × HeadingLevel)) : List Heading → List Heading
  | [] => []
  | h :: rest =>
    if heading_key h ∈ seen then filterDupAux seen rest
    else h :: filterDupAux (heading_key h :: seen) rest

/-- `filter_duplicate_headings`: first occurrence of each key is kept. -/
def filter_duplicate_headings (hs : List Heading) : List Heading :=
  filterDupAux [] hs

/-- `extract_headings`: classification pass followed by deduplication. -/
def extract_headings (pages : List PageData) : List Heading :=
  filter_duplicate_headings (rawHeadings pages)

/-- Fold step of `extract_title`: track the maximal first-page font size and
the candidates at that size with stripped length above 3. -/
def titleStep (st : ℚ × List Str) (b : Block) : ℚ × List Str :=
  let t := pyStrip b.text
  if st.1 < b.font_size ∧ 3 < t.length then (b.font_size, [t])
  else if b.font_size = st.1 ∧ 3 < t.length then (st.1, st.2 ++ [t])
  else st

/-- Python `max(candidates, key=len)`: first candidate of maximal length. -/
def maxByLen : Str → List Str → Str
  | best, [] => best
  | best, c :: rest => if best.length < c.length then maxByLen c rest else maxByLen best rest

/-- `extract_title`: largest-font candidates on the first page; longest wins;
`"Untitled Document"` when nothing qualifies. -/
def extract_title (pages : List PageData) : Str :=
  match pages with
  | [] => str "Untitled Document"
  | first :: _ =>
    match (first.text_blocks.foldl titleStep (0, [])).2 with
    | [] => str "Untitled Document"
    | c :: cs => maxByLen c cs

/-- Input to `extract_outline`: either the page data produced by the external
PDF layer, or the exception its extraction raised (the `try` block's only
fallible call). -/
inductive ExtractInput where
  | error (msg : Str)
  | ok (pages : List PageData)

/-- The per-document outline artifact `{title, outline}`. -/
structure OutlineResult where
  title : Str
  outline : List Heading
  deriving DecidableEq

/-- Boolean relation of the stable page sort `headings.sort(key=page)`. -/
def pageLe (a b : Heading) : Bool := decide (a.page ≤ b.page)

/-- `extract_outline`: sentinel on error, sentinel on empty page list,
otherwise title plus page-sorted deduplicated headings. -/
def extract_outline (input : ExtractInput) : OutlineResult :=
  match input with
  | .error _ => OutlineResult.mk (str "Error Processing Document") []
  | .ok pages =>
    if pages.isEmpty then OutlineResult.mk (str "Empty Document") []
    else OutlineResult.mk (extract_title pages) ((extract_headings pages).mergeSort pageLe)

/-- The outline list of the artifact for successfully parsed page data. -/
def outlineOf (pages : List PageData) : List Heading :=
  (extract_outline (.ok pages)).outline

end R1a

namespace R1b

open Py

/-- One page of raw text for `round1b.py` (`page_number`, `text`, `document`). -/
structure PageContent where
  page_number : Nat
  text : Str
  document : Str
  deriving DecidableEq

/-- One segmented section (the `relevance_score` key is attached later by the
pipeline and is carried separately as a pair component). -/
structure Section where
  document : Str
  section_title : Str
  page_start : Nat
  page_end : Nat
  content : Str
  deriving DecidableEq

/-- One ranked subsection. -/
structure Subsection where
  document : Str
  page_number : Nat
  refined_text : Str
  relevance_score : ℚ
  deriving DecidableEq

/-- Matcher for `re.match(r'^([A-Z]\.?\t?\s+)', s, re.IGNORECASE)`: with
`IGNORECASE` the class is any ASCII letter; since a tab is itself whitespace,
`\t?\s+` matches exactly when the next character is whitespace. -/
def matchLetterCI : Str → Bool
  | [] => false
  | c :: rest =>
    c.isAlpha &&
      (match rest with
       | '.' :: t =>
         (match t with
          | e :: _ => isPySpace e
          | [] => false)
       | e :: _ => isPySpace e
       | [] => false)

/-- Characters of the class `[IVX]` under `IGNORECASE`. -/
def isRomanCI (c : Char) : Bool :=
  c == 'I' || c == 'V' || c == 'X' || c == 'i' || c == 'v' || c == 'x'

/-- Matcher for `re.match(r'^([IVX]+\.?\t?\s+)', s, re.IGNORECASE)`. -/
def matchRomanCI (s : Str) : Bool :=
  let rs := s.takeWhile isRomanCI
  let r1 := s.dropWhile isRomanCI
  if rs.isEmpty then false
  else
    match r1 with
    | '.' :: t =>
      (match t with
       | e :: _ => isPySpace e
       | [] => false)
    | e :: _ => isPySpace e
    | [] => false

/-- Matcher for `re.match('^(W\s+\d+)', s, re.IGNORECASE)` for a literal
word `W`. -/
def matchWordNumCI (w : Str) (s : Str) : Bool :=
  if lowerStr (s.take w.length) == lowerStr w then
    let r := s.drop w.length
    let sp := r.takeWhile isPySpace
    match r.dropWhile isPySpace with
    | c :: _ => !sp.isEmpty && c.isDigit
    | [] => false
  else false

/-- Case-insensitive `re.match` against a literal word: the line starts with
the word up to ASCII case. -/
def startsWithCI (w s : Str) : Bool := lowerStr (s.take w.length) == lowerStr w

/-- Alternatives of the sixth `section_markers` pattern. -/
def discourseWords1 : List Str :=
  [str "Abstract", str "Introduction", str "Conclusion", str "Results",
   str "Discussion", str "Methods", str "Methodology"]

/-- Alternatives of the seventh `section_markers` pattern. -/
def discourseWords2 : List Str :=
  [str "Executive Summary", str "Overview", str "Background", str "Findings",
   str "Recommendations"]

/-- Does any of the seven `section_markers` patterns match the line
(`re.match(pattern, line, re.IGNORECASE)`)? -/
def matchesSectionMarker (line : Str) : Bool :=
  matchNumbered line || matchLetterCI line || matchRomanCI line ||
  matchWordNumCI (str "Chapter") line || matchWordNumCI (str "Section") line ||
  discourseWords1.any (fun w => startsWithCI w line) ||
  discourseWords2.any (fun w => startsWithCI w line)

/-- Character class `[\d\.\s\w]` of the title clean-up substitution (note
that `\w` makes it include every letter and underscore). -/
def isSubClassChar (c : Char) : Bool :=
  c.isDigit || c == '.' || isPySpace c || c.isAlphanum || c == '_'

/-- `re.sub(r'^[\d\.\s\w]+[:.]?\s*', '', line)`: when the line starts with a
class character, remove the maximal class run, then one `':'` if present
(a `'.'` is impossible there, the class run already absorbed it), then
trailing whitespace; otherwise the regex does not match and the line is
unchanged. -/
def stripLeadingNumbering (line : Str) : Str :=
  match line with
  | [] => []
  | c :: _ =>
    if isSubClassChar c then
      let r1 := line.dropWhile isSubClassChar
      let r2 := match r1 with
        | ':' :: t => t
        | _ => r1
      r2.dropWhile isPySpace
    else line

/-- The cleaned section title: the substitution above followed by `strip()`. -/
def cleanTitle (line : Str) : Str := pyStrip (stripLeadingNumbering line)

/-- Matcher for `re.search(r'\d{4}|\$|\%', line)`. -/
def searchBadChars (s : Str) : Bool :=
  has4ConsecDigits s || s.any (fun c => c == '$' || c == '%')

/-- The all-caps / title-case header heuristic of `identify_sections`. -/
def heurHeader (line : Str) : Bool :=
  decide (5 < line.length) && decide (line.length < 100) &&
    (pyIsUpper line || pyIsTitle line) && !searchBadChars line

/-- Header decision of `identify_sections` for one stripped nonempty line:
the heuristic check runs after the marker loop and overwrites its title, so
a line passing the heuristic keeps its raw text as title, a line matching
only a marker gets the cleaned title, and other lines are not headers. -/
def headerTitle (line : Str) : Option Str :=
  if heurHeader line then some line
  else if matchesSectionMarker line then some (cleanTitle line)
  else none

/-- Close the open section: append it when its stripped content is nonempty. -/
def closeSection (secs : List Section) : Option Section → List Section
  | some cs => if !(pyStrip cs.content).isEmpty then secs ++ [cs] else secs
  | none => secs

/-- Per-line state transition of `identify_sections`. -/
def processLine (doc : Str) (pg : Nat) (st : List Section × Option Section)
    (rawLine : Str) : List Section × Option Section :=
  let line := pyStrip rawLine
  if line.isEmpty then st
  else
    match headerTitle line with
    | some t => (closeSection st.1 st.2, some (Section.mk doc t pg pg []))
    | none =>
      match st.2 with
      | some cs =>
        (st.1, some { cs with content := cs.content ++ line ++ [' '], page_end := pg })
      | none =>
        (st.1, some (Section.mk doc (str "Introduction") pg pg (line ++ [' '])))

/-- `identify_sections`: fold the header/content automaton over every line of
every page and close the final open section. -/
def identify_sections (pages : List PageContent) : List Section :=
  let st := pages.foldl
    (fun st page => (page.text.splitOn '\n').foldl (processLine page.document page.page_number) st)
    ([], none)
  closeSection st.1 st.2

/-- The curated `preferred_sections` title list. -/
def preferred_sections : List Str :=
  [str "Comprehensive Guide to Major Cities in the South of France",
   str "Coastal Adventures",
   str "Culinary Experiences",
   str "General Packing Tips and Tricks",
   str "Nightlife and Entertainment",
   str "Travel Tips",
   str "Family-Friendly Hotels"]

/-- The keyword list of the title boost. -/
def score_keywords : List Str :=
  [str "result", str "finding", str "conclusion", str "method", str "analysis"]

/-- The query text `f"{persona} {job}"`. -/
def queryText (persona job : Str) : Str := persona ++ [' '] ++ job

/-- The scored text `f"{title} {content[:1000]}"`. -/
def sectionText (s : Section) : Str :=
  s.section_title ++ [' '] ++ s.content.take 1000

/-- First boost of `calculate_relevance_score`: `+0.5` on an exact
preferred-title match. -/
def prefBoost (title : Str) (score : ℚ) : ℚ :=
  if title ∈ preferred_sections then score + 0.5 else score

/-- Second boost: `*1.2` when the lowercased title contains a keyword. -/
def keywordBoost (title : Str) (score : ℚ) : ℚ :=
  if score_keywords.any (fun k => containsSub k (lowerStr title)) then score * 1.2
  else score

/-- Third boost, exactly as the source orders its branches: the `>500` test
runs first, so the `>1000` branch is unreachable. -/
def lengthBoost (content : Str) (score : ℚ) : ℚ :=
  if 500 < content.length then score * 1.1
  else if 1000 < content.length then score * 1.2
  else score

/-- `calculate_relevance_score`: cosine similarity of query and section
texts, then the three boosts in source order, capped at `1.0`. -/
def calculate_relevance_score (sim : Str → Str → ℚ) (s : Section)
    (persona job : Str) : ℚ :=
  min (lengthBoost s.content
        (keywordBoost s.section_title
          (prefBoost s.section_title
            (sim (queryText persona job) (sectionText s))))) 1

/-- Python `content.split('\n\n')` (leftmost non-overlapping split on the
two-character separator); the accumulator holds the current segment
reversed. -/
def splitNN (acc : Str) : Str → List Str
  | '\n' :: '\n' :: rest => acc.reverse :: splitNN [] rest
  | c :: rest => splitNN (c :: acc) rest
  | [] => [acc.reverse]

/-- Paragraph candidates of `extract_subsections`: blank-line paragraphs of
stripped length above 50, falling back to sentence splitting on `'.'`. -/
def paragraphsOf (content : Str) : List Str :=
  let ps := ((splitNN [] content).map pyStrip).filter (fun p => 50 < p.length)
  if ps.isEmpty then
    ((content.splitOn '.').map pyStrip).filter (fun p => 50 < p.length)
  else ps

/-- The subsections built from the first ten paragraph candidates whose
length exceeds 100, before ranking. -/
def candidateSubsections (sim : Str → Str → ℚ) (s : Section)
    (persona job : Str) : List Subsection :=
  ((paragraphsOf s.content).take 10).filterMap (fun p =>
    if 100 < p.length then
      some (Subsection.mk s.document s.page_start
        (p.take 500 ++ (if 500 < p.length then str "..." else []))
        (sim (queryText persona job) p))
    else none)

/-- Boolean relation of the stable descending sort on subsection scores. -/
def subScoreDescLe (a b : Subsection) : Bool :=
  decide (b.relevance_score ≤ a.relevance_score)

/-- `extract_subsections`: build candidates, sort by score descending
(stably), keep the first `top_k`. -/
def extract_subsections (sim : Str → Str → ℚ) (s : Section)
    (persona job : Str) (top_k : Nat := 3) : List Subsection :=
  ((candidateSubsections sim s persona job).mergeSort subScoreDescLe).take top_k

/-- One `extracted_sections` output entry. -/
structure ExtractedEntry where
  document : Str
  section_title : Str
  importance_rank : Nat
  page_number : Nat
  deriving DecidableEq

/-- One `subsection_analysis` output entry. -/
structure SubEntry where
  document : Str
  refined_text : Str
  page_number : Nat
  deriving DecidableEq

/-- The analysis output.  The `metadata` block (file basenames, persona and
job echoes, wall-clock timestamp) is pure I/O bookkeeping and is outside the
embedded core. -/
structure AnalysisResult where
  extracted_sections : List ExtractedEntry
  subsection_analysis : List SubEntry
  deriving DecidableEq

/-- All sections of all documents, each paired with its relevance score, in
pipeline order. -/
def scoreSections (sim : Str → Str → ℚ) (docs : List (List PageContent))
    (persona job : Str) : List (Section × ℚ) :=
  docs.flatMap (fun d =>
    (identify_sections d).map (fun s => (s, calculate_relevance_score sim s persona job)))

/-- Boolean relation of the stable descending sort on section scores. -/
def secScoreDescLe (a b : Section × ℚ) : Bool := decide (b.2 ≤ a.2)

/-- The scored sections sorted by score descending (stably). -/
def sortedSections (sim : Str → Str → ℚ) (docs : List (List PageContent))
    (persona job : Str) : List (Section × ℚ) :=
  (scoreSections sim docs persona job).mergeSort secScoreDescLe

/-- `analyze_documents` (its document-level core, after the external PDF
extraction): sort all scored sections, keep ten, rank them; extract
subsections from the first five, sort, keep fifteen. -/
def analyze_documents (sim : Str → Str → ℚ) (docs : List (List PageContent))
    (persona job : Str) : AnalysisResult :=
  let top_sections := (sortedSections sim docs persona job).take 10
  let extracted := top_sections.mapIdx (fun i s =>
    ExtractedEntry.mk s.1.document s.1.section_title (i + 1) s.1.page_start)
  let subs := (top_sections.take 5).flatMap (fun s =>
    extract_subsections sim s.1 persona job 3)
  let subsSorted := subs.mergeSort subScoreDescLe
  AnalysisResult.mk extracted
    ((subsSorted.take 15).map (fun s => SubEntry.mk s.document s.refined_text s.page_number))

end R1b

/-! ### Concrete inputs used by the counterexamples and witnesses -/

/-- A similarity oracle that is constantly zero. -/
def simZero : Str → Str → ℚ := fun _ _ => 0

/-- A similarity oracle that is constantly `0.3`. -/
def simC1 : Str → Str → ℚ := fun _ _ => 3/10

/-- A similarity oracle that is constantly `-0.5`. -/
def simNeg : Str → Str → ℚ := fun _ _ => -(1/2)

/-- A concrete persona string. -/
def personaW : Str := str "Travel Planner"

/-- A concrete job string. -/
def jobW : Str := str "Plan a trip of four days"

/-- Section with a preferred title and 1200 characters of content. -/
def secC1 : R1b.Section :=
  R1b.Section.mk (str "doc.pdf") (str "Coastal Adventures") 1 1 (List.replicate 1200 'a')

/-- Section with a preferred title and short content. -/
def secPref : R1b.Section :=
  R1b.Section.mk (str "doc.pdf") (str "Coastal Adventures") 1 1 (str "short content")

/-- Section with a plain title and short content. -/
def secPlain : R1b.Section :=
  R1b.Section.mk (str "doc.pdf") (str "Assorted Notes") 1 1 (str "short content")

/-- A purely numeric span of font size 20. -/
def blockC2 : R1a.Block := R1a.Block.mk (str "42") 20 0

/-- A normal span of font size 20. -/
def blockC2W : R1a.Block := R1a.Block.mk (str "Introduction") 20 0

/-- A bold numbered span of font size 10 (below every absolute band). -/
def blockC4 : R1a.Block := R1a.Block.mk (str "1. Intro") 10 16

/-- A non-bold numbered span of font size 10. -/
def blockC4W : R1a.Block := R1a.Block.mk (str "1. Intro") 10 0

/-- A page whose text starts with the heading line `"3.2 Methodology Overview"`. -/
def pageC3 : R1b.PageContent :=
  R1b.PageContent.mk 1 (str "3.2 Methodology Overview\nSome additional content here")
    (str "doc.pdf")

/-- The section the segmenter actually produces from `pageC3`. -/
def secC3 : R1b.Section :=
  R1b.Section.mk (str "doc.pdf") (str "3.2 Methodology Overview") 1 1
    (str "Some additional content here ")

/-- One-page span data producing two retained headings. -/
def pagesW : List R1a.PageData :=
  [R1a.PageData.mk 1
    [R1a.Block.mk (str "1. Introduction") 20 0, R1a.Block.mk (str "Revision History") 16 0]]

/-- First heading extracted from `pagesW`. -/
def hW1 : R1a.Heading := R1a.Heading.mk R1a.HeadingLevel.H1 (str "1. Introduction") 1

/-- Second heading extracted from `pagesW`. -/
def hW2 : R1a.Heading := R1a.Heading.mk R1a.HeadingLevel.H1 (str "Revision History") 1

/-- One single-page document yielding two equal-score sections. -/
def docsW : List (List R1b.PageContent) :=
  [[R1b.PageContent.mk 1
    (str "INTRODUCTION HERE\nsome content a\nBACKGROUND INFO\nmore content b")
    (str "doc.pdf")]]

/-- First section segmented out of `docsW`. -/
def secW1 : R1b.Section :=
  R1b.Section.mk (str "doc.pdf") (str "INTRODUCTION HERE") 1 1 (str "some content a ")

/-- Second section segmented out of `docsW`. -/
def secW2 : R1b.Section :=
  R1b.Section.mk (str "doc.pdf") (str "BACKGROUND INFO") 1 1 (str "more content b ")

/-- Section whose single paragraph has 600 characters. -/
def secC9 : R1b.Section :=
  R1b.Section.mk (str "doc.pdf") (str "Findings") 1 2 (List.replicate 600 'a')

/-- The subsection extracted from `secC9`: 500 kept characters plus `"..."`. -/
def subC9 : R1b.Subsection :=
  R1b.Subsection.mk (str "doc.pdf") 1 (List.replicate 500 'a' ++ str "...") 0

/-- Section spanning pages 3 to 7 with one 150-character paragraph. -/
def secC10 : R1b.Section :=
  R1b.Section.mk (str "doc.pdf") (str "Overview") 3 7 (List.replicate 150 'b')

/-- The subsection extracted from `secC10`. -/
def subC10 : R1b.Subsection :=
  R1b.Subsection.mk (str "doc.pdf") 3 (List.replicate 150 'b') 0

/-! ### Theorems -/

unseal Rat.mul Rat.add Rat.inv Rat.ofScientific in
/-- C1: the content-length bonus in the source checks `>500` first, so a
1200-character section with an exact preferred-title match and similarity 0.3
scores `(0.3+0.5)*1.1 = 0.88`, not the `(0.3+0.5)*1.2 = 0.96` the spec's rule
order predicts: the `>1000 → *1.2` branch is unreachable dead code. -/
theorem content_length_bonus_code_eval :
    R1b.calculate_relevance_score simC1 secC1 personaW jobW = 0.88 ∧
    R1b.calculate_relevance_score simC1 secC1 personaW jobW ≠ 0.96 := by
  constructor
  · decide
  · decide

/-- C2 counterexample: the purely numeric span `"42"` at font size 20 is
rejected with `None` by rule 1, so a span with `font_size ≥ 18` is not always
classified `H1`. -/
theorem large_font_counterexample :
    (18 : ℚ) ≤ blockC2.font_size ∧ R1a.classify_heading_level blockC2 12 = none := by
  constructor
  · decide
  · decide

/-- C2 amended: every span with `font_size ≥ 18` whose stripped text has at
least two characters and is not purely numeric is classified `H1`. -/
theorem large_font_H1 (b : R1a.Block) (avg : ℚ)
    (hlen : 2 ≤ (Py.pyStrip b.text).length)
    (hdig : Py.pyIsdigit (Py.pyStrip b.text) = false)
    (h18 : 18 ≤ b.font_size) :
    R1a.classify_heading_level b avg = some R1a.HeadingLevel.H1 := by
  have hc : ¬((Py.pyStrip b.text).length < 2 ∨ Py.pyIsdigit (Py.pyStrip b.text) = true) := by
    rw [hdig]
    simp only [Bool.false_eq_true, or_false]
    omega
  simp only [R1a.classify_heading_level]
  rw [if_neg hc, if_pos h18]

/-- C2 witness: the amended theorem applied to a concrete 20-point span. -/
theorem large_font_H1_witness :
    R1a.classify_heading_level blockC2W 12 = some R1a.HeadingLevel.H1 :=
  large_font_H1 blockC2W 12 (by decide) (by decide) (by decide)

/-- C3: on the page starting with the heading line
`"3.2 Methodology Overview"` the segmenter emits a section titled with the
FULL raw line, not `"Methodology Overview"`: the title-case heuristic runs
after the marker branch and overwrites the title with the raw line, and the
clean-up regex `^[\d\.\s\w]+[:.]?\s*` would strip the whole line to the empty
string anyway because `\w` also consumes letters. -/
theorem methodology_title_code_eval :
    R1b.identify_sections [pageC3] = [secC3] ∧
    secC3.section_title = str "3.2 Methodology Overview" ∧
    R1b.cleanTitle (str "3.2 Methodology Overview") = [] := by
  refine ⟨?_, ?_, ?_⟩
  · decide
  · decide
  · decide

unseal Rat.mul Rat.add Rat.inv Rat.ofScientific in
/-- C4 counterexample: a bold numbered span of size 10 with document average
12 is below every absolute band and at most `1.1×` the average, so the claim
predicts `H3`, but the code returns `H1` because boldness alone selects the
first branch. -/
theorem pattern_rule_counterexample :
    blockC4.font_size < 12 ∧
    R1a.is_heading_pattern (Py.pyStrip blockC4.text) = true ∧
    ¬((12 : ℚ) * 1.1 < blockC4.font_size) ∧
    R1a.classify_heading_level blockC4 12 = some R1a.HeadingLevel.H1 := by
  refine ⟨?_, ?_, ?_, ?_⟩
  · decide
  · decide
  · decide
  · decide

/-- C4 amended: for a pattern-matching span below every absolute band,
classification is `H1` when the span is bold or exceeds `1.2×` the average,
`H2` when it exceeds `1.1×`, and `H3` otherwise — boldness does enter the
first branch. -/
theorem pattern_rule_classification (b : R1a.Block) (avg : ℚ)
    (hlen : 2 ≤ (Py.pyStrip b.text).length)
    (hdig : Py.pyIsdigit (Py.pyStrip b.text) = false)
    (hsize : b.font_size < 12)
    (hpat : R1a.is_heading_pattern (Py.pyStrip b.text) = true) :
    R1a.classify_heading_level b avg =
      (if R1a.is_bold b.font_flags = true ∨ avg * 1.2 < b.font_size then
        some R1a.HeadingLevel.H1
      else if avg * 1.1 < b.font_size then some R1a.HeadingLevel.H2
      else some R1a.HeadingLevel.H3) := by
  have hc : ¬((Py.pyStrip b.text).length < 2 ∨ Py.pyIsdigit (Py.pyStrip b.text) = true) := by
    rw [hdig]
    simp only [Bool.false_eq_true, or_false]
    omega
  have h18 : ¬(18 ≤ b.font_size) := by linarith
  have h16 : ¬(16 ≤ b.font_size) := by linarith
  have h14 : ¬(14 ≤ b.font_size) := by linarith
  have h12 : ¬(12 ≤ b.font_size) := by linarith
  simp only [R1a.classify_heading_level]
  rw [if_neg hc, if_neg h18, if_neg h16, if_neg h14, if_neg h12, if_pos hpat]

/-- C4 witness: the amended theorem applied to a concrete non-bold span. -/
theorem pattern_rule_classification_witness :
    R1a.classify_heading_level blockC4W 12 =
      (if R1a.is_bold blockC4W.font_flags = true ∨ (12 : ℚ) * 1.2 < blockC4W.font_size then
        some R1a.HeadingLevel.H1
      else if (12 : ℚ) * 1.1 < blockC4W.font_size then some R1a.HeadingLevel.H2
      else some R1a.HeadingLevel.H3) :=
  pattern_rule_classification blockC4W 12 (by decide) (by decide) (by decide) (by decide)

/-- C8: outline extraction is a total function of the extraction outcome —
an extraction error yields the `"Error Processing Document"` sentinel with an
empty outline, and an empty page list yields the `"Empty Document"` sentinel,
so no exception propagates. -/
theorem outline_error_handling :
    (∀ msg : Str, R1a.extract_outline (R1a.ExtractInput.error msg)
        = R1a.OutlineResult.mk (str "Error Processing Document") []) ∧
    R1a.extract_outline (R1a.ExtractInput.ok [])
        = R1a.OutlineResult.mk (str "Empty Document") [] :=
  ⟨fun _ => rfl, rfl⟩

/-- A nonnegative score is not decreased by the keyword boost. -/
theorem keywordBoost_ge {x : ℚ} (t : Str) (hx : 0 ≤ x) : x ≤ R1b.keywordBoost t x := by
  unfold R1b.keywordBoost
  split
  · nlinarith
  · exact le_refl x

/-- A nonnegative score is not decreased by the content-length boost. -/
theorem lengthBoost_ge {x : ℚ} (c : Str) (hx : 0 ≤ x) : x ≤ R1b.lengthBoost c x := by
  unfold R1b.lengthBoost
  split
  · nlinarith
  · split
    · nlinarith
    · exact le_refl x

/-- A negative score stays negative through the keyword boost. -/
theorem keywordBoost_neg {x : ℚ} (t : Str) (hx : x < 0) : R1b.keywordBoost t x < 0 := by
  unfold R1b.keywordBoost
  split
  · nlinarith
  · exact hx

/-- A negative score stays negative through the content-length boost. -/
theorem lengthBoost_neg {x : ℚ} (c : Str) (hx : x < 0) : R1b.lengthBoost c x < 0 := by
  unfold R1b.lengthBoost
  split
  · nlinarith
  · split
    · nlinarith
    · exact hx

/-- C5: the relevance score is capped at 1; a preferred-title section with
zero similarity scores at least 0.5; and with no preferred-title bonus, no
keyword match, and content of at most 500 characters a negative similarity
passes through unchanged (there is no lower clamp), so the score is then the
negative similarity itself. -/
theorem relevance_score_bounds (sim : Str → Str → ℚ) (s : R1b.Section)
    (persona job : Str) :
    R1b.calculate_relevance_score sim s persona job ≤ 1 ∧
    (s.section_title ∈ R1b.preferred_sections →
      sim (R1b.queryText persona job) (R1b.sectionText s) = 0 →
      1/2 ≤ R1b.calculate_relevance_score sim s persona job) ∧
    (sim (R1b.queryText persona job) (R1b.sectionText s) < 0 →
      s.section_title ∉ R1b.preferred_sections →
      R1b.score_keywords.any
          (fun k => Py.containsSub k (Py.lowerStr s.section_title)) = false →
      s.content.length ≤ 500 →
      R1b.calculate_relevance_score sim s persona job
        = sim (R1b.queryText persona job) (R1b.sectionText s) ∧
      R1b.calculate_relevance_score sim s persona job < 0) := by
  refine ⟨min_le_right _ _, ?_, ?_⟩
  · intro hmem hz
    unfold R1b.calculate_relevance_score
    rw [hz, R1b.prefBoost, if_pos hmem]
    have h05 : (0 : ℚ) + 0.5 = 1/2 := by norm_num
    rw [h05]
    have h1 : (1/2 : ℚ) ≤ R1b.keywordBoost s.section_title (1/2) :=
      keywordBoost_ge _ (by norm_num)
    have h2 : R1b.keywordBoost s.section_title (1/2)
        ≤ R1b.lengthBoost s.content (R1b.keywordBoost s.section_title (1/2)) :=
      lengthBoost_ge _ (le_trans (by norm_num) h1)
    exact le_min (le_trans h1 h2) (by norm_num)
  · intro hneg hnmem hkey hlen
    have hx : R1b.calculate_relevance_score sim s persona job
        = sim (R1b.queryText persona job) (R1b.sectionText s) := by
      unfold R1b.calculate_relevance_score
      rw [R1b.prefBoost, if_neg hnmem]
      rw [R1b.keywordBoost, if_neg (by simp [hkey])]
      rw [R1b.lengthBoost, if_neg (by omega), if_neg (by omega)]
      exact min_eq_left (by linarith)
    exact ⟨hx, by rw [hx]; exact hneg⟩

unseal Rat.mul Rat.add Rat.inv Rat.ofScientific in
/-- C5 witness: the bounds theorem applied to a zero-similarity preferred
section and a negative-similarity plain section. -/
theorem relevance_score_bounds_witness :
    R1b.calculate_relevance_score simZero secPref personaW jobW ≤ 1 ∧
    1/2 ≤ R1b.calculate_relevance_score simZero secPref personaW jobW ∧
    R1b.calculate_relevance_score simNeg secPlain personaW jobW
      = simNeg (R1b.queryText personaW jobW) (R1b.sectionText secPlain) :=
  ⟨(relevance_score_bounds simZero secPref personaW jobW).1,
   (relevance_score_bounds simZero secPref personaW jobW).2.1 (by decide) rfl,
   ((relevance_score_bounds simNeg secPlain personaW jobW).2.2
      (by norm_num [simNeg]) (by decide) (by decide) (by decide)).1⟩

/-- Unpack membership in the candidate subsection list: every candidate comes
from a paragraph of length above 100 and carries the section's `page_start`
and the 500-character-truncated text. -/
theorem mem_candidateSubsections {sim : Str → Str → ℚ} {s : R1b.Section}
    {persona job : Str} {sub : R1b.Subsection}
    (h : sub ∈ R1b.candidateSubsections sim s persona job) :
    ∃ p : Str, 100 < p.length ∧
      sub = R1b.Subsection.mk s.document s.page_start
        (p.take 500 ++ (if 500 < p.length then str "..." else []))
        (sim (R1b.queryText persona job) p) := by
  simp only [R1b.candidateSubsections, List.mem_filterMap] at h
  obtain ⟨p, hp, heq⟩ := h
  by_cases h100 : 100 < p.length
  · rw [if_pos h100] at heq
    exact ⟨p, h100, (Option.some_inj.mp heq).symm⟩
  · rw [if_neg h100] at heq
    cases heq

/-- Membership in the extractor output implies membership among the
candidates (the sort permutes and the take keeps a sublist). -/
theorem mem_of_mem_extract_subsections {sim : Str → Str → ℚ} {s : R1b.Section}
    {persona job : Str} {k : Nat} {sub : R1b.Subsection}
    (h : sub ∈ R1b.extract_subsections sim s persona job k) :
    sub ∈ R1b.candidateSubsections sim s persona job := by
  unfold R1b.extract_subsections at h
  exact List.mem_mergeSort.mp (List.mem_of_mem_take h)

/-- C9 counterexample: a 600-character paragraph yields a `refined_text` of
503 characters (500 kept plus the appended `"..."`), which exceeds the
claimed 500-character bound. -/
theorem refined_text_length_counterexample :
    (R1b.extract_subsections simZero secC9 personaW jobW 3).map
        (fun sub => sub.refined_text.length) = [503] ∧ ¬(503 ≤ 500) := by
  refine ⟨?_, by decide⟩
  have h : R1b.candidateSubsections simZero secC9 personaW jobW = [subC9] := by decide
  unfold R1b.extract_subsections
  rw [h, List.mergeSort_singleton]
  decide

/-- C9 amended: every extracted subsection's `refined_text` is the first 500
characters of its source paragraph with `"..."` appended when the paragraph
exceeds 500 characters, hence has at most 503 characters (503 exactly when
truncated). -/
theorem refined_text_shape (sim : Str → Str → ℚ) (s : R1b.Section)
    (persona job : Str) (k : Nat) :
    ∀ sub ∈ R1b.extract_subsections sim s persona job k,
      sub.refined_text.length ≤ 503 ∧
      ∃ p : Str, sub.refined_text
        = p.take 500 ++ (if 500 < p.length then str "..." else []) := by
  intro sub hmem
  obtain ⟨p, hp100, rfl⟩ := mem_candidateSubsections (mem_of_mem_extract_subsections hmem)
  refine ⟨?_, p, rfl⟩
  rw [List.length_append, List.length_take]
  have h3 : (if 500 < p.length then str "..." else []).length ≤ 3 := by
    split
    · decide
    · decide
  omega

/-- C9 witness: the shape theorem applied to the concrete subsection built
from the 600-character section. -/
theorem refined_text_shape_witness :
    subC9.refined_text.length ≤ 503 ∧
    ∃ p : Str, subC9.refined_text
      = p.take 500 ++ (if 500 < p.length then str "..." else []) :=
  refined_text_shape simZero secC9 personaW jobW 3 subC9 (by
    have h : R1b.candidateSubsections simZero secC9 personaW jobW = [subC9] := by decide
    unfold R1b.extract_subsections
    rw [h, List.mergeSort_singleton]
    decide)

/-- C10: every extracted subsection reports the section's `page_start` as its
page number, for every similarity oracle, section, query, and cutoff. -/
theorem subsection_page_number (sim : Str → Str → ℚ) (s : R1b.Section)
    (persona job : Str) (k : Nat) :
    ∀ sub ∈ R1b.extract_subsections sim s persona job k,
      sub.page_number = s.page_start := by
  intro sub hmem
  obtain ⟨p, hp100, rfl⟩ := mem_candidateSubsections (mem_of_mem_extract_subsections hmem)
  rfl

/-- C10 witness: the page-number theorem applied to a section spanning pages
3 to 7, whose extracted subsection reports page 3. -/
theorem subsection_page_number_witness : subC10.page_number = secC10.page_start :=
  subsection_page_number simZero secC10 personaW jobW 3 subC10 (by
    have h : R1b.candidateSubsections simZero secC10 personaW jobW = [subC10] := by decide
    unfold R1b.extract_subsections
    rw [h, List.mergeSort_singleton]
    decide)

/-- Transitivity of the descending section-score relation. -/
theorem secScoreDescLe_trans : ∀ a b c : R1b.Section × ℚ,
    R1b.secScoreDescLe a b → R1b.secScoreDescLe b c → R1b.secScoreDescLe a c := by
  intro a b c h1 h2
  simp only [R1b.secScoreDescLe, decide_eq_true_eq] at h1 h2 ⊢
  exact le_trans h2 h1

/-- Totality of the descending section-score relation. -/
theorem secScoreDescLe_total : ∀ a b : R1b.Section × ℚ,
    R1b.secScoreDescLe a b || R1b.secScoreDescLe b a := by
  intro a b
  simp only [R1b.secScoreDescLe, Bool.or_eq_true, decide_eq_true_eq]
  exact le_total b.2 a.2

/-- The importance ranks produced by the indexing pass are consecutive
numbers starting just above the offset. -/
theorem rank_mapIdx (l : List (R1b.Section × ℚ)) :
    ∀ k : Nat,
      ((l.mapIdx (fun i s => R1b.ExtractedEntry.mk s.1.document s.1.section_title
          (i + k + 1) s.1.page_start)).map (fun e => e.importance_rank))
        = List.range' (k + 1) l.length := by
  induction l with
  | nil => intro k; simp
  | cons a l ih =>
    intro k
    rw [List.mapIdx_cons, List.map_cons, List.length_cons, List.range'_succ]
    have hk : ∀ i : Nat, i + 1 + k + 1 = i + (k + 1) + 1 := fun i => by omega
    simp only [hk]
    rw [ih (k + 1)]
    simp [Nat.zero_add]

/-- C6: the ranking pipeline's `extracted_sections` list has length
`min 10 (number of scored sections)`; the sorted section list is
non-increasing in score on its ten-element prefix; the importance ranks are
exactly 1, 2, … in list order; and the sort is stable, keeping the input
order of any two equal-score sections. -/
theorem ranking_top_sections (sim : Str → Str → ℚ)
    (docs : List (List R1b.PageContent)) (persona job : Str) :
    (R1b.analyze_documents sim docs persona job).extracted_sections.length
        = min 10 (R1b.scoreSections sim docs persona job).length ∧
    ((R1b.sortedSections sim docs persona job).take 10).Pairwise
        (fun a b => b.2 ≤ a.2) ∧
    (R1b.analyze_documents sim docs persona job).extracted_sections.map
        (fun e => e.importance_rank)
        = List.range' 1
            (R1b.analyze_documents sim docs persona job).extracted_sections.length ∧
    (∀ a b : R1b.Section × ℚ, a.2 = b.2 →
        List.Sublist [a, b] (R1b.scoreSections sim docs persona job) →
        List.Sublist [a, b] (R1b.sortedSections sim docs persona job)) := by
  refine ⟨?_, ?_, ?_, ?_⟩
  · simp [R1b.analyze_documents, R1b.sortedSections, List.length_take]
  · have hs := List.sorted_mergeSort secScoreDescLe_trans secScoreDescLe_total
      (R1b.scoreSections sim docs persona job)
    have hp : (R1b.sortedSections sim docs persona job).Pairwise
        (fun a b => b.2 ≤ a.2) := by
      refine hs.imp ?_
      intro a b h
      simpa [R1b.secScoreDescLe] using h
    exact List.Pairwise.sublist (List.take_sublist _ _) hp
  · have h := rank_mapIdx ((R1b.sortedSections sim docs persona job).take 10) 0
    simp only [R1b.analyze_documents, List.length_mapIdx]
    exact h
  · intro a b hab hsub
    refine List.pair_sublist_mergeSort secScoreDescLe_trans secScoreDescLe_total ?_ hsub
    simp only [R1b.secScoreDescLe, decide_eq_true_eq]
    exact le_of_eq hab.symm

unseal Rat.mul Rat.add Rat.sub Rat.inv Rat.ofScientific in
/-- C6 witness: the ranking theorem applied to a concrete document with two
equal-score sections. -/
theorem ranking_top_sections_witness :
    (R1b.analyze_documents simZero docsW personaW jobW).extracted_sections.length
        = min 10 (R1b.scoreSections simZero docsW personaW jobW).length ∧
    List.Sublist [(secW1, (0 : ℚ)), (secW2, (0 : ℚ))]
      (R1b.sortedSections simZero docsW personaW jobW) :=
  ⟨(ranking_top_sections simZero docsW personaW jobW).1,
   (ranking_top_sections simZero docsW personaW jobW).2.2.2 (secW1, 0) (secW2, 0) rfl
     (by
       have h : R1b.scoreSections simZero docsW personaW jobW
           = [(secW1, 0), (secW2, 0)] := by decide
       rw [h])⟩

/-- Transitivity of the page sort relation. -/
theorem pageLe_trans : ∀ a b c : R1a.Heading,
    R1a.pageLe a b → R1a.pageLe b c → R1a.pageLe a c := by
  intro a b c h1 h2
  simp only [R1a.pageLe, decide_eq_true_eq] at h1 h2 ⊢
  omega

/-- Totality of the page sort relation. -/
theorem pageLe_total : ∀ a b : R1a.Heading, R1a.pageLe a b || R1a.pageLe b a := by
  intro a b
  simp only [R1a.pageLe, Bool.or_eq_true, decide_eq_true_eq]
  omega

/-- A heading surviving deduplication has a key outside the seen set. -/
theorem key_not_seen_of_mem_filterDupAux :
    ∀ (seen : List (Str × R1a.HeadingLevel)) (l : List R1a.Heading)
      (h : R1a.Heading), h ∈ R1a.filterDupAux seen l →
      R1a.heading_key h ∉ seen := by
  intro seen l
  induction l generalizing seen with
  | nil =>
    intro h hm
    simp [R1a.filterDupAux] at hm
  | cons a l ih =>
    intro h hm
    simp only [R1a.filterDupAux] at hm
    split at hm
    · exact ih seen h hm
    · rename_i hnot
      rcases List.mem_cons.mp hm with rfl | hm2
      · exact hnot
      · have h2 := ih _ h hm2
        intro hin
        exact h2 (List.mem_cons_of_mem _ hin)

/-- Deduplication yields pairwise distinct `(text.lower(), level)` keys. -/
theorem pairwise_filterDupAux :
    ∀ (seen : List (Str × R1a.HeadingLevel)) (l : List R1a.Heading),
      (R1a.filterDupAux seen l).Pairwise
        (fun a b => R1a.heading_key a ≠ R1a.heading_key b) := by
  intro seen l
  induction l generalizing seen with
  | nil => simp [R1a.filterDupAux]
  | cons a l ih =>
    simp only [R1a.filterDupAux]
    split
    · exact ih seen
    · refine List.Pairwise.cons ?_ (ih _)
      intro b hb he
      have h2 := key_not_seen_of_mem_filterDupAux _ _ b hb
      apply h2
      rw [← he]
      exact List.mem_cons_self _ _

/-- The first heading carrying its key is kept by deduplication. -/
theorem first_occurrence_mem_filterDupAux :
    ∀ (pre : List R1a.Heading) (seen : List (Str × R1a.HeadingLevel))
      (y : R1a.Heading) (post : List R1a.Heading),
      (∀ z ∈ pre, R1a.heading_key z ≠ R1a.heading_key y) →
      R1a.heading_key y ∉ seen →
      y ∈ R1a.filterDupAux seen (pre ++ y :: post) := by
  intro pre
  induction pre with
  | nil =>
    intro seen y post _ hseen
    simp only [List.nil_append, R1a.filterDupAux]
    rw [if_neg hseen]
    exact List.mem_cons_self _ _
  | cons z pre ih =>
    intro seen y post hpre hseen
    have hzy : R1a.heading_key z ≠ R1a.heading_key y :=
      hpre z (List.mem_cons_self _ _)
    simp only [List.cons_append, R1a.filterDupAux]
    split
    · exact ih seen y post (fun w hw => hpre w (List.mem_cons_of_mem _ hw)) hseen
    · refine List.mem_cons_of_mem _ ?_
      refine ih _ y post (fun w hw => hpre w (List.mem_cons_of_mem _ hw)) ?_
      intro hin
      rcases List.mem_cons.mp hin with he | hin2
      · exact hzy he.symm
      · exact hseen hin2

/-- C7: the produced outline has pairwise distinct `(text.lower(), level)`
keys, is non-decreasing in page number, preserves the pre-sort order of any
two headings with non-decreasing pages (so ties keep scan order), and keeps
the first scan-order occurrence of every key. -/
theorem outline_wellformed (pages : List R1a.PageData) :
    (R1a.outlineOf pages).Pairwise
        (fun a b => R1a.heading_key a ≠ R1a.heading_key b) ∧
    (R1a.outlineOf pages).Pairwise (fun a b => a.page ≤ b.page) ∧
    (∀ a b : R1a.Heading, a.page ≤ b.page →
        List.Sublist [a, b] (R1a.extract_headings pages) →
        List.Sublist [a, b] (R1a.outlineOf pages)) ∧
    (∀ (pre : List R1a.Heading) (y : R1a.Heading) (post : List R1a.Heading),
        R1a.rawHeadings pages = pre ++ y :: post →
        (∀ z ∈ pre, R1a.heading_key z ≠ R1a.heading_key y) →
        y ∈ R1a.outlineOf pages) := by
  by_cases hp : pages.isEmpty
  · have he : R1a.outlineOf pages = [] := by
      simp [R1a.outlineOf, R1a.extract_outline, hp]
    have hnil : pages = [] := List.isEmpty_iff.mp hp
    subst hnil
    refine ⟨?_, ?_, ?_, ?_⟩
    · rw [he]; exact List.Pairwise.nil
    · rw [he]; exact List.Pairwise.nil
    · intro a b _ hsub
      have hx : R1a.extract_headings [] = [] := rfl
      rw [hx] at hsub
      simp at hsub
    · intro pre y post heq _
      have hx : R1a.rawHeadings [] = [] := rfl
      rw [hx] at heq
      exact absurd heq.symm (by simp)
  · have ho : R1a.outlineOf pages = (R1a.extract_headings pages).mergeSort R1a.pageLe := by
      simp [R1a.outlineOf, R1a.extract_outline, hp]
    refine ⟨?_, ?_, ?_, ?_⟩
    · rw [ho]
      have h1 : (R1a.extract_headings pages).Pairwise
          (fun a b => R1a.heading_key a ≠ R1a.heading_key b) :=
        pairwise_filterDupAux [] (R1a.rawHeadings pages)
      exact ((List.mergeSort_perm (R1a.extract_headings pages) R1a.pageLe).pairwise_iff
        (fun h => Ne.symm h)).mpr h1
    · rw [ho]
      refine (List.sorted_mergeSort pageLe_trans pageLe_total _).imp ?_
      intro a b h
      simpa [R1a.pageLe] using h
    · intro a b hab hsub
      rw [ho]
      refine List.pair_sublist_mergeSort pageLe_trans pageLe_total ?_ hsub
      simpa [R1a.pageLe] using hab
    · intro pre y post heq hfirst
      rw [ho]
      apply List.mem_mergeSort.mpr
      unfold R1a.extract_headings R1a.filter_duplicate_headings
      rw [heq]
      exact first_occurrence_mem_filterDupAux pre [] y post hfirst (by simp)

unseal Rat.mul Rat.add Rat.sub Rat.inv Rat.ofScientific in
/-- C7 witness: the outline theorem applied to one concrete page producing a
numbered heading and an allow-listed heading. -/
theorem outline_wellformed_witness :
    List.Sublist [hW1, hW2] (R1a.outlineOf pagesW) ∧ hW1 ∈ R1a.outlineOf pagesW :=
  ⟨(outline_wellformed pagesW).2.2.1 hW1 hW2 (by decide)
      (by
        have h : R1a.extract_headings pagesW = [hW1, hW2] := by decide
        rw [h]),
   (outline_wellformed pagesW).2.2.2 [] hW1 [hW2] (by decide) (by simp)⟩
